import Mathlib

/-!
# Translation-unit queries and document-annotation extraction

A shallow embedding of `clangtranslationunit.cpp` and
`documentannotationschangedmessage.cpp` (namespace `ClangBackEnd`), and of the
helper-script, environment and copy functions of `maemoglobal.cpp` (namespace
`Qt4ProjectManager.Internal`, class `MaemoGlobal`).

* Strings (`Utf8String`, `QString`) are `String`; `QVector` is `List`
  (`push_back` appends at the end, `clear` is `[]`).
* Native handles (`CXIndex`, `CXTranslationUnit`) are pointers: a `Nat`
  address, `0` being the null pointer.
* The native parse engine is a value `NativeEngine`: what each libclang entry
  point, and each wrapper constructor that is handed the handle, answers for a
  handle in one parse.
* Member functions that talk to the engine are state-passing functions on a
  `World`: the parse generation, the parse held in each generation, and the
  trace of the accesses made so far, each recorded with the generation it saw.
* For `MaemoGlobal`, the platform macros and the Qt and `Utils` library
  functions are the fields of a `Host`; a `QProcess` is the list of the
  `start` calls made on it; a `QString *` is an `Option`, `none` being the
  null pointer; the source of a copy is a finite tree.
-/

namespace ClangBackEnd

/-! ## Data model -/

abbrev Utf8String := String

/-- A `CXIndex` is a pointer; `0` is the null pointer. -/
abbrev CXIndex := Nat

/-- A `CXTranslationUnit` is a pointer; `0` is the null pointer. -/
abbrev CXTranslationUnit := Nat

/-- Modelled from the spec: the `DiagnosticSeverity` enumeration is declared
outside the given sources.  The spec lists Note, Warning, Error and Fatal;
`Ignored` is the value a default-constructed container carries. -/
inductive DiagnosticSeverity where
  | Ignored
  | Note
  | Warning
  | Error
  | Fatal
  deriving DecidableEq, Repr

/-- Modelled from the spec: a source location is (file, line, column); the
`SourceLocation` wrapper is declared outside the given sources. -/
structure SourceLocation where
  filePath : Utf8String
  line : Nat
  column : Nat
  deriving DecidableEq, Repr

/-- Modelled from the spec: the `SourceRange` wrapper, built from two
locations (`SourceRange(start, end)`). -/
structure SourceRange where
  start : SourceLocation
  stop : SourceLocation
  deriving DecidableEq, Repr

/-- Modelled from the spec: the transportable copy of a `SourceLocation`. -/
structure SourceLocationContainer where
  filePath : Utf8String
  line : Nat
  column : Nat
  deriving DecidableEq, Repr

/-- Modelled from the spec: the transportable copy of a `SourceRange`. -/
structure SourceRangeContainer where
  start : SourceLocationContainer
  stop : SourceLocationContainer
  deriving DecidableEq, Repr

/-- Modelled from the spec: one finding of the parser, with severity, source
location and message text; the `Diagnostic` wrapper is declared outside the
given sources. -/
structure Diagnostic where
  severity : DiagnosticSeverity
  location : SourceLocation
  text : Utf8String
  deriving DecidableEq, Repr

/-- Modelled from the spec: the transportable copy of a `Diagnostic`. -/
structure DiagnosticContainer where
  location : SourceLocationContainer
  text : Utf8String
  severity : DiagnosticSeverity
  deriving DecidableEq, Repr

/-- The default-constructed `DiagnosticContainer()`: the value that stands
for "no diagnostic". -/
def DiagnosticContainer.empty : DiagnosticContainer :=
  ⟨⟨"", 0, 0⟩, "", DiagnosticSeverity.Ignored⟩

/-- Modelled from the spec: `SourceLocation::toSourceLocationContainer`. -/
def SourceLocation.toSourceLocationContainer (l : SourceLocation) :
    SourceLocationContainer :=
  ⟨l.filePath, l.line, l.column⟩

/-- Modelled from the spec: `SourceRange::toSourceRangeContainer`. -/
def SourceRange.toSourceRangeContainer (r : SourceRange) : SourceRangeContainer :=
  ⟨r.start.toSourceLocationContainer, r.stop.toSourceLocationContainer⟩

/-- Modelled from the spec: `Diagnostic::toDiagnosticContainer` copies the
finding field by field. -/
def Diagnostic.toDiagnosticContainer (d : Diagnostic) : DiagnosticContainer :=
  ⟨d.location.toSourceLocationContainer, d.text, d.severity⟩

/-- A `DiagnosticSet` is the ordered sequence of diagnostics of one parse. -/
abbrev DiagnosticSet := List Diagnostic

/-- Modelled from the spec: the `Cursor` wrapper; `TranslationUnit` only asks
a cursor for its source range. -/
structure Cursor where
  sourceRange : SourceRange
  deriving DecidableEq, Repr

/-- A raw `CXToken` of the native engine. -/
abbrev CXToken := Nat

/-- Modelled from the spec: one token classification (kind, range, role). -/
structure TokenInfo where
  kind : Nat
  range : SourceRange
  role : Nat
  deriving DecidableEq, Repr

/-- Modelled from the spec: the transportable copy of a `TokenInfo`. -/
structure TokenInfoContainer where
  kind : Nat
  range : SourceRangeContainer
  role : Nat
  deriving DecidableEq, Repr

abbrev TokenInfos := List TokenInfo

abbrev SkippedSourceRanges := List SourceRange

/-- Modelled from the spec: `TokenInfos::toTokenInfoContainers`. -/
def TokenInfos.toTokenInfoContainers (ts : TokenInfos) : List TokenInfoContainer :=
  ts.map fun t => ⟨t.kind, t.range.toSourceRangeContainer, t.role⟩

/-- Modelled from the spec: `SkippedSourceRanges::toSourceRangeContainers`. -/
def SkippedSourceRanges.toSourceRangeContainers (rs : SkippedSourceRanges) :
    List SourceRangeContainer :=
  rs.map SourceRange.toSourceRangeContainer

/-- The four members of `TranslationUnit`. -/
structure TranslationUnit where
  m_id : Utf8String
  m_filePath : Utf8String
  m_cxIndex : CXIndex
  m_cxTranslationUnit : CXTranslationUnit
  deriving DecidableEq, Repr

/-! ## The native engine and the trace of accesses -/

/-- What the native parse engine answers in one parse generation: the libclang
entry points called in `clangtranslationunit.cpp`, and the wrapper
constructors that are handed the handle there (declared outside the given
sources, so taken as given). -/
structure NativeEngine where
  getDiagnosticSetFromTU : CXTranslationUnit → DiagnosticSet
  getTranslationUnitCursor : CXTranslationUnit → Cursor
  getCursor : CXTranslationUnit → SourceLocation → Cursor
  tokenize : CXTranslationUnit → SourceRange → List CXToken
  suspendTranslationUnit : CXTranslationUnit → Bool
  sourceLocation : CXTranslationUnit → Utf8String → Nat → Nat → SourceLocation
  tokenInfos : CXTranslationUnit → List CXToken → TokenInfos
  skippedSourceRanges : CXTranslationUnit → Utf8String → SkippedSourceRanges

/-- One access to the native engine. -/
inductive NativeCall where
  | clang_getDiagnosticSetFromTU (tu : CXTranslationUnit)
  | clang_getTranslationUnitCursor (tu : CXTranslationUnit)
  | clang_getCursor (tu : CXTranslationUnit) (location : SourceLocation)
  | clang_tokenize (tu : CXTranslationUnit) (range : SourceRange)
  | clang_suspendTranslationUnit (tu : CXTranslationUnit)
  | newSourceLocation (tu : CXTranslationUnit) (filePath : Utf8String) (line column : Nat)
  | newTokenInfos (tu : CXTranslationUnit) (tokens : List CXToken)
  | newSkippedSourceRanges (tu : CXTranslationUnit) (filePath : Utf8String)
  deriving DecidableEq, Repr

/-- A trace entry: the access and the parse generation it saw. -/
structure Access where
  call : NativeCall
  generation : Nat
  deriving DecidableEq, Repr

/-- The instrumented engine: the current parse generation, the parse the
engine holds in each generation, and the accesses made so far (oldest
first). -/
structure World where
  generation : Nat
  engineAt : Nat → NativeEngine
  trace : List Access

/-- The parse the engine holds now. -/
def World.engine (w : World) : NativeEngine := w.engineAt w.generation

/-- A member function that may talk to the engine. -/
abbrev Native (α : Type) := World → α × World

/-- Record a read access; the parse is left as it is. -/
def World.read (w : World) (c : NativeCall) : World :=
  ⟨w.generation, w.engineAt, w.trace ++ [⟨c, w.generation⟩]⟩

/-- Record an access that changes the parsed representation: the generation
counter is bumped. -/
def World.bump (w : World) (c : NativeCall) : World :=
  ⟨w.generation + 1, w.engineAt, w.trace ++ [⟨c, w.generation⟩]⟩

/-- Modelled from the spec: the three update modes of
`TranslationUnitUpdater::UpdateMode`. -/
inductive UpdateMode where
  | AsNeeded
  | ParseIfNeeded
  | ForceReparse
  deriving DecidableEq, Repr

/-- Modelled from the spec: one (re)parse request: target file path,
command-line arguments and the overlay snapshot. -/
structure TranslationUnitUpdateInput where
  filePath : Utf8String
  commandLineArguments : List Utf8String
  unsavedFiles : List (Utf8String × Utf8String)
  deriving DecidableEq, Repr

/-- Modelled from the spec: the status of an update result. -/
inductive UpdateStatus where
  | Success
  | NoActionNeeded
  | Failure (reason : Utf8String)
  deriving DecidableEq, Repr

/-- Modelled from the spec: a status plus timing metadata. -/
structure TranslationUnitUpdateResult where
  status : UpdateStatus
  timePoint : Nat
  deriving DecidableEq, Repr

/-- The constructor arguments of `TranslationUnitUpdater`. -/
structure TranslationUnitUpdater where
  id : Utf8String
  cxIndex : CXIndex
  cxTranslationUnit : CXTranslationUnit
  input : TranslationUnitUpdateInput
  deriving DecidableEq, Repr

/-- The member `TranslationUnitUpdater::update(mode)` is defined outside the
given sources: the Update Policy is taken as given.  It may reparse, that is
change the world in any way. -/
abbrev UpdatePolicy :=
  TranslationUnitUpdater → UpdateMode → Native TranslationUnitUpdateResult

/-! ## `TranslationUnit` -/

/-- The body of `TranslationUnit::isNull`. -/
def TranslationUnit.isNull (t : TranslationUnit) : Bool :=
  t.m_cxTranslationUnit == 0 || t.m_cxIndex == 0 || t.m_filePath.isEmpty || t.m_id.isEmpty

/-- The body of `TranslationUnit::diagnostics`. -/
def TranslationUnit.diagnostics (t : TranslationUnit) : Native DiagnosticSet := fun w =>
  (w.engine.getDiagnosticSetFromTU t.m_cxTranslationUnit,
   w.read (NativeCall.clang_getDiagnosticSetFromTU t.m_cxTranslationUnit))

/-- The body of the static `isMainFileDiagnostic`. -/
def isMainFileDiagnostic (mainFilePath : Utf8String) (diagnostic : Diagnostic) : Bool :=
  diagnostic.location.filePath == mainFilePath

/-- The body of the static `isHeaderErrorDiagnostic`. -/
def isHeaderErrorDiagnostic (mainFilePath : Utf8String) (diagnostic : Diagnostic) : Bool :=
  let isCritical := diagnostic.severity == DiagnosticSeverity.Error
                 || diagnostic.severity == DiagnosticSeverity.Fatal
  isCritical && diagnostic.location.filePath != mainFilePath

/-- The variables the loop of `extractDiagnostics` works on: the local flag
and the two output arguments. -/
structure ExtractState where
  hasFirstHeaderErrorDiagnostic : Bool
  firstHeaderErrorDiagnostic : DiagnosticContainer
  mainFileDiagnostics : List DiagnosticContainer
  deriving DecidableEq, Repr

/-- One iteration of the loop of `extractDiagnostics`. -/
def extractDiagnosticsStep (m_filePath : Utf8String) (s : ExtractState)
    (diagnostic : Diagnostic) : ExtractState :=
  let s1 : ExtractState :=
    if !s.hasFirstHeaderErrorDiagnostic && isHeaderErrorDiagnostic m_filePath diagnostic then
      ⟨true, diagnostic.toDiagnosticContainer, s.mainFileDiagnostics⟩
    else s
  if isMainFileDiagnostic m_filePath diagnostic then
    ⟨s1.hasFirstHeaderErrorDiagnostic, s1.firstHeaderErrorDiagnostic,
     s1.mainFileDiagnostics ++ [diagnostic.toDiagnosticContainer]⟩
  else s1

/-- The body of `TranslationUnit::extractDiagnostics`.  The two arguments are
the values the output references hold on entry; the result is what they hold
on return.  `diagnostics()` is evaluated once for `reserve` and once for the
loop. -/
def TranslationUnit.extractDiagnostics (t : TranslationUnit)
    (firstHeaderErrorDiagnostic : DiagnosticContainer)
    (_mainFileDiagnostics : List DiagnosticContainer) :
    Native (DiagnosticContainer × List DiagnosticContainer) := fun w =>
  let cleared : List DiagnosticContainer := []
  let (_forReserve, w1) := t.diagnostics w
  let (set, w2) := t.diagnostics w1
  let s := set.foldl (extractDiagnosticsStep t.m_filePath)
    ⟨false, firstHeaderErrorDiagnostic, cleared⟩
  ((s.firstHeaderErrorDiagnostic, s.mainFileDiagnostics), w2)

/-- The body of `TranslationUnit::update`. -/
def TranslationUnit.update (t : TranslationUnit) (policy : UpdatePolicy)
    (parseInput : TranslationUnitUpdateInput) : Native TranslationUnitUpdateResult :=
  let updater : TranslationUnitUpdater :=
    ⟨t.m_id, t.m_cxIndex, t.m_cxTranslationUnit, parseInput⟩
  policy updater UpdateMode.AsNeeded

/-- The body of `TranslationUnit::parse`. -/
def TranslationUnit.parse (t : TranslationUnit) (policy : UpdatePolicy)
    (parseInput : TranslationUnitUpdateInput) : Native TranslationUnitUpdateResult :=
  let updater : TranslationUnitUpdater :=
    ⟨t.m_id, t.m_cxIndex, t.m_cxTranslationUnit, parseInput⟩
  policy updater UpdateMode.ParseIfNeeded

/-- The body of `TranslationUnit::reparse`. -/
def TranslationUnit.reparse (t : TranslationUnit) (policy : UpdatePolicy)
    (parseInput : TranslationUnitUpdateInput) : Native TranslationUnitUpdateResult :=
  let updater : TranslationUnitUpdater :=
    ⟨t.m_id, t.m_cxIndex, t.m_cxTranslationUnit, parseInput⟩
  policy updater UpdateMode.ForceReparse

/-- The body of `TranslationUnit::suspend`: the native call changes the
parsed representation. -/
def TranslationUnit.suspend (t : TranslationUnit) : Native Bool := fun w =>
  (w.engine.suspendTranslationUnit t.m_cxTranslationUnit,
   w.bump (NativeCall.clang_suspendTranslationUnit t.m_cxTranslationUnit))

/-- The body of `TranslationUnit::sourceLocationAt(line, column)`. -/
def TranslationUnit.sourceLocationAt (t : TranslationUnit) (line column : Nat) :
    Native SourceLocation := fun w =>
  (w.engine.sourceLocation t.m_cxTranslationUnit t.m_filePath line column,
   w.read (NativeCall.newSourceLocation t.m_cxTranslationUnit t.m_filePath line column))

/-- The body of `TranslationUnit::sourceLocationAt(filePath, line, column)`. -/
def TranslationUnit.sourceLocationAtFile (t : TranslationUnit) (filePath : Utf8String)
    (line column : Nat) : Native SourceLocation := fun w =>
  (w.engine.sourceLocation t.m_cxTranslationUnit filePath line column,
   w.read (NativeCall.newSourceLocation t.m_cxTranslationUnit filePath line column))

/-- The body of `TranslationUnit::sourceRange`.  The two `sourceLocationAt`
calls are the arguments of one constructor call, so the order in which they
are made is the compiler's choice: `toFirst` says whether the location of
`(toLine, toColumn)` is built before that of `(fromLine, fromColumn)`. -/
def TranslationUnit.sourceRange (t : TranslationUnit) (toFirst : Bool)
    (fromLine fromColumn toLine toColumn : Nat) : Native SourceRange := fun w =>
  if toFirst then
    let (b, w1) := t.sourceLocationAt toLine toColumn w
    let (a, w2) := t.sourceLocationAt fromLine fromColumn w1
    (⟨a, b⟩, w2)
  else
    let (a, w1) := t.sourceLocationAt fromLine fromColumn w
    let (b, w2) := t.sourceLocationAt toLine toColumn w1
    (⟨a, b⟩, w2)

/-- The body of `TranslationUnit::cursorAt(line, column)`. -/
def TranslationUnit.cursorAt (t : TranslationUnit) (line column : Nat) :
    Native Cursor := fun w =>
  let (location, w1) := t.sourceLocationAt line column w
  (w1.engine.getCursor t.m_cxTranslationUnit location,
   w1.read (NativeCall.clang_getCursor t.m_cxTranslationUnit location))

/-- The body of `TranslationUnit::cursorAt(filePath, line, column)`. -/
def TranslationUnit.cursorAtFile (t : TranslationUnit) (filePath : Utf8String)
    (line column : Nat) : Native Cursor := fun w =>
  let (location, w1) := t.sourceLocationAtFile filePath line column w
  (w1.engine.getCursor t.m_cxTranslationUnit location,
   w1.read (NativeCall.clang_getCursor t.m_cxTranslationUnit location))

/-- The body of `TranslationUnit::cursor`. -/
def TranslationUnit.cursor (t : TranslationUnit) : Native Cursor := fun w =>
  (w.engine.getTranslationUnitCursor t.m_cxTranslationUnit,
   w.read (NativeCall.clang_getTranslationUnitCursor t.m_cxTranslationUnit))

/-- The body of `TranslationUnit::tokenInfosInRange`. -/
def TranslationUnit.tokenInfosInRange (t : TranslationUnit) (range : SourceRange) :
    Native TokenInfos := fun w =>
  let cxTokens := w.engine.tokenize t.m_cxTranslationUnit range
  let w1 := w.read (NativeCall.clang_tokenize t.m_cxTranslationUnit range)
  (w1.engine.tokenInfos t.m_cxTranslationUnit cxTokens,
   w1.read (NativeCall.newTokenInfos t.m_cxTranslationUnit cxTokens))

/-- The body of `TranslationUnit::tokenInfos`. -/
def TranslationUnit.tokenInfos (t : TranslationUnit) : Native TokenInfos := fun w =>
  let (c, w1) := t.cursor w
  t.tokenInfosInRange c.sourceRange w1

/-- The body of `TranslationUnit::skippedSourceRanges`. -/
def TranslationUnit.skippedSourceRanges (t : TranslationUnit) :
    Native SkippedSourceRanges := fun w =>
  (w.engine.skippedSourceRanges t.m_cxTranslationUnit t.m_filePath,
   w.read (NativeCall.newSkippedSourceRanges t.m_cxTranslationUnit t.m_filePath))

/-- What the four output references of `extractDocumentAnnotations` hold. -/
structure DocumentAnnotations where
  firstHeaderErrorDiagnostic : DiagnosticContainer
  mainFileDiagnostics : List DiagnosticContainer
  tokenInfos : List TokenInfoContainer
  skippedSourceRanges : List SourceRangeContainer
  deriving DecidableEq, Repr

/-- The body of `TranslationUnit::extractDocumentAnnotations`: the argument is
what the output references hold on entry, the result what they hold on
return. -/
def TranslationUnit.extractDocumentAnnotations (t : TranslationUnit)
    (out : DocumentAnnotations) : Native DocumentAnnotations := fun w =>
  let (d, w1) := t.extractDiagnostics out.firstHeaderErrorDiagnostic out.mainFileDiagnostics w
  let (tokens, w2) := t.tokenInfos w1
  let (skipped, w3) := t.skippedSourceRanges w2
  (⟨d.1, d.2, tokens.toTokenInfoContainers, skipped.toSourceRangeContainers⟩, w3)

/-! ## `DocumentAnnotationsChangedMessage` and its two stream operators -/

/-- Modelled from the spec: the file identifier of a notification; the
`FileContainer` class is declared outside the given sources. -/
structure FileContainer where
  filePath : Utf8String
  projectPartId : Utf8String
  deriving DecidableEq, Repr

/-- The five values a `DocumentAnnotationsChangedMessage` is asked for by the
stream operators. -/
structure DocumentAnnotationsChangedMessage where
  fileContainer : FileContainer
  diagnostics : List DiagnosticContainer
  firstHeaderErrorDiagnostic : DiagnosticContainer
  tokenInfos : List TokenInfoContainer
  skippedPreprocessorRanges : List SourceRangeContainer
  deriving DecidableEq, Repr

/-- The text `QDebug` writes for a `bool`. -/
def qDebugBool (b : Bool) : String := if b then "true" else "false"

/-- The text a `std::ostream` writes for a `bool`: `1` or `0`, unless the
caller has set the `boolalpha` flag on the stream. -/
def ostreamBool (boolalpha : Bool) (b : Bool) : String :=
  if boolalpha then (if b then "true" else "false") else (if b then "1" else "0")

/-- The third field both operators insert:
`!message.firstHeaderErrorDiagnostic().text().isEmpty()`. -/
def hasHeaderErrorField (message : DocumentAnnotationsChangedMessage) : Bool :=
  !message.firstHeaderErrorDiagnostic.text.isEmpty

/-- The insertions of `operator<<(QDebug, const DocumentAnnotationsChangedMessage &)`
in the order written; the stream is in `nospace()` mode, so nothing is put
between them.  `printFile` is the `QDebug` operator of `FileContainer`, defined
outside the given sources. -/
def qDebugInsertions (printFile : FileContainer → String)
    (message : DocumentAnnotationsChangedMessage) : List String :=
  [ "DocumentAnnotationsChangedMessage(",
    printFile message.fileContainer,
    ", ", toString message.diagnostics.length,
    ", ", qDebugBool (hasHeaderErrorField message),
    ", ", toString message.tokenInfos.length,
    ", ", toString message.skippedPreprocessorRanges.length,
    ")" ]

/-- The text written by `operator<<(QDebug, const DocumentAnnotationsChangedMessage &)`. -/
def qDebugOutput (printFile : FileContainer → String)
    (message : DocumentAnnotationsChangedMessage) : String :=
  String.join (qDebugInsertions printFile message)

/-- The insertions of
`operator<<(std::ostream &, const DocumentAnnotationsChangedMessage &)` in the
order written, numbers in decimal (the default number format of a stream).
`printFile` is the `std::ostream` operator of `FileContainer`, defined outside
the given sources. -/
def ostreamInsertions (printFile : FileContainer → String) (boolalpha : Bool)
    (message : DocumentAnnotationsChangedMessage) : List String :=
  [ "DocumentAnnotationsChangedMessage(",
    printFile message.fileContainer,
    ",", toString message.diagnostics.length,
    ",", ostreamBool boolalpha (hasHeaderErrorField message),
    ",", toString message.tokenInfos.length,
    ",", toString message.skippedPreprocessorRanges.length,
    ")" ]

/-- The text written by
`operator<<(std::ostream &, const DocumentAnnotationsChangedMessage &)`. -/
def ostreamOutput (printFile : FileContainer → String) (boolalpha : Bool)
    (message : DocumentAnnotationsChangedMessage) : String :=
  String.join (ostreamInsertions printFile boolalpha message)

/-! ## Concrete inputs -/

/-- An engine stub that answers every handle with the diagnostic set `D`, no
tokens and no skipped ranges. -/
def stubEngine (D : DiagnosticSet) : NativeEngine where
  getDiagnosticSetFromTU := fun _ => D
  getTranslationUnitCursor := fun _ => ⟨⟨⟨"", 0, 0⟩, ⟨"", 0, 0⟩⟩⟩
  getCursor := fun _ l => ⟨⟨l, l⟩⟩
  tokenize := fun _ _ => []
  suspendTranslationUnit := fun _ => true
  sourceLocation := fun _ f l c => ⟨f, l, c⟩
  tokenInfos := fun _ _ => []
  skippedSourceRanges := fun _ _ => []

/-- A world at generation 0 whose engine is `stubEngine D` in every
generation, with an empty trace. -/
def stubWorld (D : DiagnosticSet) : World := ⟨0, fun _ => stubEngine D, []⟩

/-- The fatal error at line 3 of `b.h`. -/
def fatalInHeader : Diagnostic := ⟨DiagnosticSeverity.Fatal, ⟨"b.h", 3, 1⟩, "macro error"⟩

/-- The warning at line 10 of `a.cpp`. -/
def warningInMain : Diagnostic := ⟨DiagnosticSeverity.Warning, ⟨"a.cpp", 10, 1⟩, "unused"⟩

/-- The error at line 20 of `a.cpp`. -/
def errorInMain : Diagnostic := ⟨DiagnosticSeverity.Error, ⟨"a.cpp", 20, 1⟩, "undeclared"⟩

/-- A second header error, at line 7 of `c.h`. -/
def errorInOtherHeader : Diagnostic := ⟨DiagnosticSeverity.Error, ⟨"c.h", 7, 1⟩, "later"⟩

/-- A valid translation unit tracking `a.cpp`. -/
def unitA : TranslationUnit := ⟨"id", "a.cpp", 1, 2⟩

/-- A translation unit whose tracked file path is empty. -/
def unitNoPath : TranslationUnit := ⟨"id", "", 1, 2⟩

/-- An error without a location, as reported for a bad command-line argument:
its location file path is empty. -/
def errorWithoutFile : Diagnostic :=
  ⟨DiagnosticSeverity.Error, ⟨"", 0, 0⟩, "unknown argument"⟩

/-- A translation unit constructed with a null parsed-representation
handle. -/
def unitNullHandle : TranslationUnit := ⟨"id", "a.cpp", 1, 0⟩

/-- The `FileContainer` printer used in the concrete renderings: the file
path. -/
def printFilePath (f : FileContainer) : String := f.filePath

/-- A notification for `a.cpp` with two main-file diagnostics, the fatal in
`b.h` as first header error, no tokens and no skipped ranges. -/
def messageA : DocumentAnnotationsChangedMessage :=
  ⟨⟨"a.cpp", ""⟩,
   [warningInMain.toDiagnosticContainer, errorInMain.toDiagnosticContainer],
   fatalInHeader.toDiagnosticContainer, [], []⟩

/-- A fatal in `b.h` whose message text is empty. -/
def fatalWithoutText : DiagnosticContainer :=
  ⟨⟨"b.h", 3, 1⟩, "", DiagnosticSeverity.Fatal⟩

/-- A notification that carries `fatalWithoutText` as first header error. -/
def messageWithoutText : DocumentAnnotationsChangedMessage :=
  ⟨⟨"a.cpp", ""⟩, [], fatalWithoutText, [], []⟩

end ClangBackEnd

namespace Qt4ProjectManager.Internal

/-! ## `QString` operations used by `maemoglobal.cpp`

The Qt library is not part of the sources; the operations below follow its
documented behaviour.  A `QString` is a `String`. -/

abbrev QString := String

/-- A piece of a format string: a plain character, or a place marker
(`%1` .. `%99`, optionally written `%L1`) with its number and its text. -/
inductive ArgPiece where
  | lit (c : Char)
  | marker (number : Nat) (text : List Char)
  deriving DecidableEq, Repr

/-- Where the scan for place markers stands: in plain text, after `%`, after
`%L`, or after the first digit of a marker. -/
inductive ArgScan where
  | normal
  | percent
  | percentL
  | digit (number : Nat) (text : List Char)
  deriving DecidableEq, Repr

/-- The value of a decimal digit. -/
def digitValue (c : Char) : Option Nat :=
  if c.isDigit then some (c.toNat - 48) else none

/-- A character met in plain text. -/
def scanStart (c : Char) : ArgScan × List ArgPiece :=
  if c = '%' then (ArgScan.percent, []) else (ArgScan.normal, [ArgPiece.lit c])

/-- One character of the scan for place markers; a `%` that is not followed
by a digit (or by `L` and a digit) is plain text, and the character after it
is looked at again. -/
def scanStep (st : ArgScan) (c : Char) : ArgScan × List ArgPiece :=
  match st with
  | ArgScan.normal => scanStart c
  | ArgScan.percent =>
    if c = 'L' then (ArgScan.percentL, [])
    else match digitValue c with
      | some d => (ArgScan.digit d ['%', c], [])
      | none => ((scanStart c).1, ArgPiece.lit '%' :: (scanStart c).2)
  | ArgScan.percentL =>
    match digitValue c with
    | some d => (ArgScan.digit d ['%', 'L', c], [])
    | none => ((scanStart c).1, ArgPiece.lit '%' :: ArgPiece.lit 'L' :: (scanStart c).2)
  | ArgScan.digit n text =>
    match digitValue c with
    | some d => (ArgScan.normal, [ArgPiece.marker (10 * n + d) (text ++ [c])])
    | none => ((scanStart c).1, ArgPiece.marker n text :: (scanStart c).2)

/-- What is left over when the string ends. -/
def scanEnd : ArgScan → List ArgPiece
  | ArgScan.normal => []
  | ArgScan.percent => [ArgPiece.lit '%']
  | ArgScan.percentL => [ArgPiece.lit '%', ArgPiece.lit 'L']
  | ArgScan.digit n text => [ArgPiece.marker n text]

/-- The pieces of a format string. -/
def scan (st : ArgScan) : List Char → List ArgPiece
  | [] => scanEnd st
  | c :: cs => (scanStep st c).2 ++ scan (scanStep st c).1 cs

/-- The numbers of the place markers of a format string, in order. -/
def markerNumbers (pieces : List ArgPiece) : List Nat :=
  pieces.filterMap fun p =>
    match p with
    | ArgPiece.lit _ => none
    | ArgPiece.marker n _ => some n

/-- The text of a piece when the markers numbered `m` are replaced by `a`. -/
def ArgPiece.replace (m : Nat) (a : List Char) : ArgPiece → List Char
  | ArgPiece.lit c => [c]
  | ArgPiece.marker n text => if n = m then a else text

/-- The function `QString::arg(const QString &a)`: every occurrence of the
lowest-numbered place marker is replaced by `a`; a string without a place
marker is returned as it is. -/
def QString.arg (s : QString) (a : QString) : QString :=
  match (markerNumbers (scan ArgScan.normal s.data)).min? with
  | none => s
  | some m => String.mk ((scan ArgScan.normal s.data).flatMap (ArgPiece.replace m a.data))

/-- The text of a piece when the markers numbered `m1` are replaced by `a1`
and those numbered `m2` by `a2`. -/
def ArgPiece.replace2 (m1 : Nat) (a1 : List Char) (m2 : Option Nat) (a2 : List Char) :
    ArgPiece → List Char
  | ArgPiece.lit c => [c]
  | ArgPiece.marker n text =>
    if n = m1 then a1 else if some n = m2 then a2 else text

/-- The function `QString::arg(const QString &a1, const QString &a2)`: the
lowest-numbered place marker is replaced by `a1` and the next one by `a2`, in
one pass over the format string. -/
def QString.arg2 (s : QString) (a1 a2 : QString) : QString :=
  match (markerNumbers (scan ArgScan.normal s.data)).min? with
  | none => s
  | some m1 =>
    String.mk ((scan ArgScan.normal s.data).flatMap
      (ArgPiece.replace2 m1 a1.data
        (((markerNumbers (scan ArgScan.normal s.data)).filter (fun n => decide (m1 < n))).min?)
        a2.data))

/-- The function `QString::mid(position, n)`: `n` characters from `position`
on; all of the rest when `n` is negative or reaches past the end. -/
def QString.mid (s : QString) (position : Nat) (n : Int) : QString :=
  if position ≥ s.length then ""
  else if n < 0 then String.mk (s.data.drop position)
  else String.mk ((s.data.drop position).take n.toNat)

/-- The function `QString::chop(n)`: the string without its last `n`
characters. -/
def QString.chop (s : QString) (n : Nat) : QString :=
  String.mk (s.data.take (s.length - n))

/-- The test `contains`: `sub` occurs in `s`. -/
def QString.contains (s sub : QString) : Bool :=
  s.data.tails.any fun t => sub.data.isPrefixOf t

/-- The function `QString::startsWith`. -/
def QString.startsWith (s start : QString) : Bool :=
  start.data.isPrefixOf s.data

/-! ## `MaemoGlobal` -/

namespace MaemoGlobal

/-- The two members of `Utils::EnvironmentItem` read by `remoteEnvironment`. -/
structure EnvironmentItem where
  name : QString
  value : QString
  deriving DecidableEq, Repr

/-- The body of `MaemoGlobal::remoteEnvironment`. -/
def remoteEnvironment (list : List EnvironmentItem) : QString :=
  let placeHolder : QString := "%1=%2 "
  let env : QString := list.foldl
    (fun env item => env ++ QString.arg (QString.arg placeHolder item.name) item.value) ""
  QString.mid env 0 ((env.length : Int) - 1)

/-- The values of `MaemoDeviceConfig::OsVersion`; `Invalid` is
`static_cast<MaemoDeviceConfig::OsVersion>(-1)`. -/
inductive OsVersion where
  | Maemo5
  | Maemo6
  | Meego
  | GenericLinux
  | Invalid
  deriving DecidableEq, Repr

/-- The member of `QtVersion` read here. -/
structure QtVersion where
  qmakeCommand : QString
  deriving DecidableEq, Repr

/-- What becomes of a started process. -/
structure ProcessRun where
  waitForStarted : Bool
  waitForFinished : Bool
  standardOutput : QString
  deriving DecidableEq, Repr

/-- The state of a `QProcess` object: the environment set on it and the
`start(program, arguments)` calls made on it, oldest first. -/
structure QProcess where
  environment : Option (List QString)
  started : List (QString × List QString)
  deriving DecidableEq, Repr

/-- A freshly constructed `QProcess`. -/
def QProcess.new : QProcess := ⟨none, []⟩

/-- The build configuration and the machine the code runs on: the platform
macros, and the Qt and `Utils` library functions the code calls, taken as
given. -/
structure Host where
  Q_OS_WIN : Bool
  EXEC_SUFFIX : QString
  fileExists : QString → Bool
  cleanPath : QString → QString
  remove : QString → QString → QString
  dirName : QString → QString
  cdUp : QString → QString
  absolutePath : QString → QString
  systemEnvironment : List QString
  prependOrSetPath : List QString → QString → List QString
  prependOrSet : List QString → QString → QString → List QString
  homeLocation : QString
  run : QProcess → ProcessRun

/-- The constant `binQmake`. -/
def binQmake (h : Host) : QString := "/bin/qmake" ++ h.EXEC_SUFFIX

/-- The body of `MaemoGlobal::targetRoot`. -/
def targetRoot (h : Host) (qtVersion : QtVersion) : QString :=
  h.remove (h.cleanPath qtVersion.qmakeCommand) (binQmake h)

/-- The body of `MaemoGlobal::targetName`. -/
def targetName (h : Host) (qtVersion : QtVersion) : QString :=
  h.dirName (targetRoot h qtVersion)

/-- The body of `MaemoGlobal::maddeRoot`. -/
def maddeRoot (h : Host) (qtVersion : QtVersion) : QString :=
  h.absolutePath (h.cdUp (h.cdUp (targetRoot h qtVersion)))

/-- The body of `MaemoGlobal::madAdminCommand`. -/
def madAdminCommand (h : Host) (qtVersion : QtVersion) : QString :=
  maddeRoot h qtVersion ++ "/bin/mad-admin"

/-- The body of `MaemoGlobal::madCommand`. -/
def madCommand (h : Host) (qtVersion : QtVersion) : QString :=
  maddeRoot h qtVersion ++ "/bin/mad"

/-- The body of `MaemoGlobal::version`. -/
def version (h : Host) (qtVersion : QtVersion) : OsVersion :=
  let name := targetName h qtVersion
  if QString.startsWith name "fremantle" then OsVersion.Maemo5
  else if QString.startsWith name "harmattan" then OsVersion.Maemo6
  else if QString.startsWith name "meego" then OsVersion.Meego
  else OsVersion.Invalid

/-- The body of `MaemoGlobal::targetArgs`. -/
def targetArgs (h : Host) (qtVersion : QtVersion) (useTarget : Bool) : List QString :=
  let args : List QString := []
  if useTarget then args ++ ["-t", targetName h qtVersion] else args

/-- The body of `MaemoGlobal::callMaddeShellScript`: the result and the
process object after the call.  The block under `Q_OS_WIN` is part of the
function in a Windows build only. -/
def callMaddeShellScript (h : Host) (proc : QProcess) (qtVersion : QtVersion)
    (command : QString) (args : List QString) (useTarget : Bool) : Bool × QProcess :=
  if !h.fileExists command then (false, proc)
  else
    let actualCommand := command
    let actualArgs := targetArgs h qtVersion useTarget ++ args
    if h.Q_OS_WIN then
      let env := h.systemEnvironment
      let root := maddeRoot h qtVersion
      let env := h.prependOrSetPath env (root ++ "/bin")
      let env := h.prependOrSet env "HOME" h.homeLocation
      let actualArgs := command :: actualArgs
      let actualCommand := root ++ "/bin/sh.exe"
      (true, ⟨some env, proc.started ++ [(actualCommand, actualArgs)]⟩)
    else
      (true, ⟨proc.environment, proc.started ++ [(actualCommand, actualArgs)]⟩)

/-- The body of `MaemoGlobal::callMad`. -/
def callMad (h : Host) (proc : QProcess) (args : List QString) (qtVersion : QtVersion)
    (useTarget : Bool) : Bool × QProcess :=
  callMaddeShellScript h proc qtVersion (madCommand h qtVersion) args useTarget

/-- The body of `MaemoGlobal::callMadAdmin`. -/
def callMadAdmin (h : Host) (proc : QProcess) (args : List QString) (qtVersion : QtVersion)
    (useTarget : Bool) : Bool × QProcess :=
  callMaddeShellScript h proc qtVersion (madAdminCommand h qtVersion) args useTarget

/-- The complete lines of a text, each with its newline: what `canReadLine`
and `readLine` hand out one by one. -/
def completeLines (current : List Char) : List Char → List QString
  | [] => []
  | c :: cs =>
    if c = Char.ofNat 10 then String.mk (current ++ [c]) :: completeLines [] cs
    else completeLines (current ++ [c]) cs

/-- The body of `MaemoGlobal::isValidMaemoQtVersion`, with the process object
it leaves behind. -/
def isValidMaemoQtVersionProc (h : Host) (qtVersion : QtVersion)
    (maemoVersion : OsVersion) : Bool × QProcess :=
  let madAdminProc := QProcess.new
  if version h qtVersion != maemoVersion then (false, madAdminProc)
  else
    let arguments : List QString := ["list"]
    let called := callMadAdmin h madAdminProc arguments qtVersion false
    if !called.1 then (false, called.2)
    else if !(h.run called.2).waitForStarted || !(h.run called.2).waitForFinished then
      (false, called.2)
    else
      let tgtName := targetName h qtVersion
      ((completeLines [] (h.run called.2).standardOutput.data).any (fun line =>
          QString.contains line tgtName
            && (QString.contains line "(installed)" || QString.contains line "(default)")),
        called.2)

/-- The value `MaemoGlobal::isValidMaemoQtVersion` returns. -/
def isValidMaemoQtVersion (h : Host) (qtVersion : QtVersion) (maemoVersion : OsVersion) :
    Bool :=
  (isValidMaemoQtVersionProc h qtVersion maemoVersion).1

/-- The body of `MaemoGlobal::architecture`, with the process object it
leaves behind. -/
def architectureProc (h : Host) (qtVersion : QtVersion) : QString × QProcess :=
  let proc := QProcess.new
  let args : List QString := ["uname", "-m"]
  let called := callMad h proc args qtVersion true
  if !called.1 then ("", called.2)
  else if !(h.run called.2).waitForFinished then ("", called.2)
  else (QString.chop (h.run called.2).standardOutput 1, called.2)

/-- The value `MaemoGlobal::architecture` returns. -/
def architecture (h : Host) (qtVersion : QtVersion) : QString :=
  (architectureProc h qtVersion).1

/-- The source of a copy as `QFileInfo::isDir` and `QDir::entryList` show it:
a directory with its entries (names as `entryList` returns them, in order),
or something that is not a directory. -/
inductive FileTree where
  | file
  | dir (entries : List (QString × FileTree))

/-- The file-system side of `copyRecursively`, taken as given:
`mkdir tgt` is the outcome of `targetDir.cdUp(); targetDir.mkdir(fileName)` for
the target path, `copy src tgt` the outcome of `QFile::copy`, and
`defaultError` the default value of the parameter `error`, which the
declaration in `maemoglobal.h` supplies to the two-argument recursive call
(`none` is the null pointer). -/
structure CopyHost where
  mkdir : QString → Bool
  copy : QString → QString → Bool
  toNativeSeparators : QString → QString
  defaultError : Option QString

/-- The message for a directory that could not be created. -/
def failedToCreateDirectory (h : CopyHost) (tgtFilePath : QString) : QString :=
  QString.arg "Failed to create directory '%1'." (h.toNativeSeparators tgtFilePath)

/-- The message for a file that could not be copied. -/
def couldNotCopyFile (h : CopyHost) (srcFilePath tgtFilePath : QString) : QString :=
  QString.arg2 "Could not copy file '%1' to '%2'."
    (h.toNativeSeparators srcFilePath) (h.toNativeSeparators tgtFilePath)

mutual

/-- The body of `MaemoGlobal::copyRecursively`.  The argument `error` is
`none` for a null pointer and `some s` for a pointer to a string holding `s`;
the result is the returned boolean and what `error` points to afterwards. -/
def copyRecursively (h : CopyHost) :
    FileTree → QString → QString → Option QString → Bool × Option QString
  | FileTree.dir entries, srcFilePath, tgtFilePath, error =>
    match !h.mkdir tgtFilePath, error with
    | true, some _ => (false, some (failedToCreateDirectory h tgtFilePath))
    | _, _ =>
      if copyEntries h entries srcFilePath tgtFilePath then (true, error) else (false, error)
  | FileTree.file, srcFilePath, tgtFilePath, error =>
    if !h.copy srcFilePath tgtFilePath then
      (false, match error with
        | some _ => some (couldNotCopyFile h srcFilePath tgtFilePath)
        | none => none)
    else (true, error)

/-- The `foreach` loop of `copyRecursively`: false as soon as the copy of an
entry returns false.  The recursive call is made without the argument
`error`. -/
def copyEntries (h : CopyHost) : List (QString × FileTree) → QString → QString → Bool
  | [], _, _ => true
  | (fileName, entry) :: rest, srcFilePath, tgtFilePath =>
    if !(copyRecursively h entry (srcFilePath ++ "/" ++ fileName)
          (tgtFilePath ++ "/" ++ fileName) h.defaultError).1 then false
    else copyEntries h rest srcFilePath tgtFilePath

end

/-! ## Concrete inputs -/

/-- A host with one MADDE installation under `/madde` holding the target
`fremantle`: `win` says whether this is a Windows build, `present` which
files exist; every started process finishes and prints `armel`. -/
def stubHost (win : Bool) (present : QString → Bool) : Host where
  Q_OS_WIN := win
  EXEC_SUFFIX := if win then ".exe" else ""
  fileExists := present
  cleanPath := id
  remove := fun s sub =>
    if s = "/madde/targets/fremantle" ++ sub then "/madde/targets/fremantle" else s
  dirName := fun p => if p = "/madde/targets/fremantle" then "fremantle" else p
  cdUp := fun p =>
    if p = "/madde/targets/fremantle" then "/madde/targets"
    else if p = "/madde/targets" then "/madde" else p
  absolutePath := id
  systemEnvironment := ["PATH=/usr/bin"]
  prependOrSetPath := fun env path => ("PATH=" ++ path) :: env
  prependOrSet := fun env key value => (key ++ "=" ++ value) :: env
  homeLocation := "/home/user"
  run := fun _ => ⟨true, true, "armel\n"⟩

/-- The Qt version of the target `fremantle` in a build without `Q_OS_WIN`. -/
def qtFremantle : QtVersion := ⟨"/madde/targets/fremantle/bin/qmake"⟩

/-- The Qt version of the target `fremantle` in a Windows build. -/
def qtFremantleWin : QtVersion := ⟨"/madde/targets/fremantle/bin/qmake.exe"⟩

/-- A file system on which creating a directory fails and copying a file
works; the default of `error` is the null pointer. -/
def hostMkdirFails : CopyHost := ⟨fun _ => false, fun _ _ => true, id, none⟩

/-- A file system on which creating a directory works and copying a file
fails; the default of `error` is the null pointer. -/
def hostCopyFails : CopyHost := ⟨fun _ => true, fun _ _ => false, id, none⟩

/-- The rendering of an environment in words: every item as `name=value`,
joined by single spaces, in list order. -/
def renderedEnvironment (list : List EnvironmentItem) : QString :=
  " ".intercalate (list.map fun item => item.name ++ "=" ++ item.value)

end MaemoGlobal

end Qt4ProjectManager.Internal

namespace ClangBackEnd

/-! ## The loop of `extractDiagnostics` -/

theorem foldl_step_main (F : Utf8String) (D : DiagnosticSet) (s : ExtractState) :
    (D.foldl (extractDiagnosticsStep F) s).mainFileDiagnostics
      = s.mainFileDiagnostics
        ++ (D.filter (fun d => decide (d.location.filePath = F))).map
            Diagnostic.toDiagnosticContainer := by
  induction D generalizing s with
  | nil => simp
  | cons d ds ih =>
    rw [List.foldl_cons, ih]
    by_cases hm : d.location.filePath = F
    · by_cases hh : (!s.hasFirstHeaderErrorDiagnostic && isHeaderErrorDiagnostic F d) = true
      · simp [extractDiagnosticsStep, isMainFileDiagnostic, hm, hh]
      · simp [extractDiagnosticsStep, isMainFileDiagnostic, hm, hh]
    · by_cases hh : (!s.hasFirstHeaderErrorDiagnostic && isHeaderErrorDiagnostic F d) = true
      · simp [extractDiagnosticsStep, isMainFileDiagnostic, hm, hh]
      · simp [extractDiagnosticsStep, isMainFileDiagnostic, hm, hh]

/-- Once the flag is set the first header error is never replaced. -/
theorem foldl_step_first_of_flag (F : Utf8String) (D : DiagnosticSet) (s : ExtractState)
    (h : s.hasFirstHeaderErrorDiagnostic = true) :
    (D.foldl (extractDiagnosticsStep F) s).firstHeaderErrorDiagnostic
      = s.firstHeaderErrorDiagnostic := by
  induction D generalizing s with
  | nil => rfl
  | cons d ds ih =>
    rw [List.foldl_cons, ih]
    · by_cases hm : isMainFileDiagnostic F d = true
      · simp [extractDiagnosticsStep, hm, h]
      · simp [extractDiagnosticsStep, hm, h]
    · by_cases hm : isMainFileDiagnostic F d = true
      · simp [extractDiagnosticsStep, hm, h]
      · simp [extractDiagnosticsStep, hm, h]

/-- The meaning of `isHeaderErrorDiagnostic`. -/
theorem isHeaderErrorDiagnostic_iff (F : Utf8String) (d : Diagnostic) :
    isHeaderErrorDiagnostic F d = true ↔
      (d.severity = DiagnosticSeverity.Error ∨ d.severity = DiagnosticSeverity.Fatal)
        ∧ d.location.filePath ≠ F := by
  simp [isHeaderErrorDiagnostic]

/-- Started with the flag unset on a set that holds a header error, the loop
ends with the container of the earliest one. -/
theorem foldl_step_first_of_some (F : Utf8String) (D : DiagnosticSet) (s : ExtractState)
    (hs : s.hasFirstHeaderErrorDiagnostic = false)
    (h : ∃ d ∈ D, isHeaderErrorDiagnostic F d = true) :
    ∃ pre d post, D = pre ++ d :: post
      ∧ (∀ x ∈ pre, isHeaderErrorDiagnostic F x = false)
      ∧ isHeaderErrorDiagnostic F d = true
      ∧ (D.foldl (extractDiagnosticsStep F) s).firstHeaderErrorDiagnostic
          = d.toDiagnosticContainer := by
  induction D generalizing s with
  | nil => obtain ⟨d, hd, _⟩ := h; cases hd
  | cons a as ih =>
    by_cases ha : isHeaderErrorDiagnostic F a = true
    · refine ⟨[], a, as, rfl, ?_, ha, ?_⟩
      · intro x hx; cases hx
      · rw [List.foldl_cons, foldl_step_first_of_flag]
        · by_cases hm : isMainFileDiagnostic F a = true
          · simp [extractDiagnosticsStep, hm, hs, ha]
          · simp [extractDiagnosticsStep, hm, hs, ha]
        · by_cases hm : isMainFileDiagnostic F a = true
          · simp [extractDiagnosticsStep, hm, hs, ha]
          · simp [extractDiagnosticsStep, hm, hs, ha]
    · have ha0 : isHeaderErrorDiagnostic F a = false := by simpa using ha
      have hrest : ∃ d ∈ as, isHeaderErrorDiagnostic F d = true := by
        obtain ⟨d, hd, hd1⟩ := h
        rcases List.mem_cons.mp hd with rfl | hmem
        · exact absurd hd1 ha
        · exact ⟨d, hmem, hd1⟩
      have hs1 : (extractDiagnosticsStep F s a).hasFirstHeaderErrorDiagnostic = false := by
        by_cases hm : isMainFileDiagnostic F a = true
        · simp [extractDiagnosticsStep, hm, hs, ha0]
        · simp [extractDiagnosticsStep, hm, hs, ha0]
      obtain ⟨pre, d, post, hsplit, hpre, hd, hres⟩ :=
        ih (extractDiagnosticsStep F s a) hs1 hrest
      refine ⟨a :: pre, d, post, by rw [hsplit]; rfl, ?_, hd, ?_⟩
      · intro x hx
        rcases List.mem_cons.mp hx with rfl | hmem
        · exact ha0
        · exact hpre x hmem
      · rw [List.foldl_cons]; exact hres

/-- C1: for every engine state and translation unit, the `mainFileDiagnostics`
that `extractDiagnostics` returns are exactly the containers of the
diagnostics of the set whose location file path equals the tracked file path,
in the order of the set, whatever the output vector held before the call; and
on the set [fatal in b.h line 3, warning in a.cpp line 10, error in a.cpp
line 20] with tracked file a.cpp the result is [warning@10, error@20]. -/
theorem C1_mainFileDiagnostics_is_filter :
    (∀ (t : TranslationUnit) (first : DiagnosticContainer)
        (before : List DiagnosticContainer) (w : World),
        (t.extractDiagnostics first before w).1.2
          = ((w.engine.getDiagnosticSetFromTU t.m_cxTranslationUnit).filter
              (fun d => decide (d.location.filePath = t.m_filePath))).map
              Diagnostic.toDiagnosticContainer)
    ∧ (unitA.extractDiagnostics DiagnosticContainer.empty
          [errorInOtherHeader.toDiagnosticContainer]
          (stubWorld [fatalInHeader, warningInMain, errorInMain])).1.2
        = [warningInMain.toDiagnosticContainer, errorInMain.toDiagnosticContainer] := by
  refine ⟨?_, by decide⟩
  intro t first before w
  simp [TranslationUnit.extractDiagnostics, TranslationUnit.diagnostics, World.read,
    World.engine, foldl_step_main]

/-- C2: when the diagnostic set holds a diagnostic with severity Error or
Fatal whose location file path differs from the tracked file path, the
`firstHeaderErrorDiagnostic` that `extractDiagnostics` returns is the container
of the earliest such diagnostic of the set: no diagnostic before it is a
header error, and those after it do not replace it. -/
theorem C2_first_header_error_is_earliest (t : TranslationUnit)
    (first : DiagnosticContainer) (before : List DiagnosticContainer) (w : World)
    (h : ∃ d ∈ w.engine.getDiagnosticSetFromTU t.m_cxTranslationUnit,
      (d.severity = DiagnosticSeverity.Error ∨ d.severity = DiagnosticSeverity.Fatal)
        ∧ d.location.filePath ≠ t.m_filePath) :
    ∃ pre d post,
      w.engine.getDiagnosticSetFromTU t.m_cxTranslationUnit = pre ++ d :: post
      ∧ (∀ x ∈ pre, ¬ ((x.severity = DiagnosticSeverity.Error
            ∨ x.severity = DiagnosticSeverity.Fatal)
          ∧ x.location.filePath ≠ t.m_filePath))
      ∧ (d.severity = DiagnosticSeverity.Error ∨ d.severity = DiagnosticSeverity.Fatal)
      ∧ d.location.filePath ≠ t.m_filePath
      ∧ (t.extractDiagnostics first before w).1.1 = d.toDiagnosticContainer := by
  have h1 : ∃ d ∈ w.engine.getDiagnosticSetFromTU t.m_cxTranslationUnit,
      isHeaderErrorDiagnostic t.m_filePath d = true := by
    obtain ⟨d, hd, hp⟩ := h
    exact ⟨d, hd, (isHeaderErrorDiagnostic_iff _ d).mpr hp⟩
  obtain ⟨pre, d, post, hsplit, hpre, hd, hres⟩ :=
    foldl_step_first_of_some t.m_filePath _ ⟨false, first, []⟩ rfl h1
  refine ⟨pre, d, post, hsplit, ?_, ((isHeaderErrorDiagnostic_iff _ d).mp hd).1,
    ((isHeaderErrorDiagnostic_iff _ d).mp hd).2, ?_⟩
  · intro x hx hp
    have := hpre x hx
    rw [(isHeaderErrorDiagnostic_iff _ x).mpr hp] at this
    cases this
  · simpa [TranslationUnit.extractDiagnostics, TranslationUnit.diagnostics, World.read,
      World.engine] using hres

/-- C2 at a concrete set: with a fatal in b.h followed by an error in c.h the
hypothesis holds and the result is the container of the fatal in b.h. -/
theorem C2_first_header_error_is_earliest_witness :
    (∃ d ∈ (stubWorld [warningInMain, fatalInHeader, errorInMain,
          errorInOtherHeader]).engine.getDiagnosticSetFromTU unitA.m_cxTranslationUnit,
      (d.severity = DiagnosticSeverity.Error ∨ d.severity = DiagnosticSeverity.Fatal)
        ∧ d.location.filePath ≠ unitA.m_filePath)
    ∧ (∃ pre d post,
      (stubWorld [warningInMain, fatalInHeader, errorInMain,
          errorInOtherHeader]).engine.getDiagnosticSetFromTU unitA.m_cxTranslationUnit
        = pre ++ d :: post
      ∧ (∀ x ∈ pre, ¬ ((x.severity = DiagnosticSeverity.Error
            ∨ x.severity = DiagnosticSeverity.Fatal)
          ∧ x.location.filePath ≠ unitA.m_filePath))
      ∧ (d.severity = DiagnosticSeverity.Error ∨ d.severity = DiagnosticSeverity.Fatal)
      ∧ d.location.filePath ≠ unitA.m_filePath
      ∧ (unitA.extractDiagnostics DiagnosticContainer.empty []
          (stubWorld [warningInMain, fatalInHeader, errorInMain,
            errorInOtherHeader])).1.1 = d.toDiagnosticContainer)
    ∧ (unitA.extractDiagnostics DiagnosticContainer.empty []
          (stubWorld [warningInMain, fatalInHeader, errorInMain,
            errorInOtherHeader])).1.1 = fatalInHeader.toDiagnosticContainer :=
  have h : ∃ d ∈ (stubWorld [warningInMain, fatalInHeader, errorInMain,
          errorInOtherHeader]).engine.getDiagnosticSetFromTU unitA.m_cxTranslationUnit,
      (d.severity = DiagnosticSeverity.Error ∨ d.severity = DiagnosticSeverity.Fatal)
        ∧ d.location.filePath ≠ unitA.m_filePath :=
    ⟨fatalInHeader, by decide, by decide, by decide⟩
  ⟨h, C2_first_header_error_is_earliest unitA DiagnosticContainer.empty []
      (stubWorld [warningInMain, fatalInHeader, errorInMain, errorInOtherHeader]) h,
    by decide⟩

/-- C3: evaluation at the failing input.  The set [warning in a.cpp, error in
a.cpp] holds no header error, the output argument holds the container of an
earlier fatal in b.h on entry, and `extractDiagnostics` (and with it
`extractDocumentAnnotations`) returns that stale container, which is not the
default diagnostic; the vector argument, in contrast, is cleared. -/
theorem C3_stale_first_header_error :
    (∀ d ∈ [warningInMain, errorInMain],
        ¬ ((d.severity = DiagnosticSeverity.Error ∨ d.severity = DiagnosticSeverity.Fatal)
          ∧ d.location.filePath ≠ unitA.m_filePath))
    ∧ (unitA.extractDiagnostics fatalInHeader.toDiagnosticContainer
          [fatalInHeader.toDiagnosticContainer]
          (stubWorld [warningInMain, errorInMain])).1
        = (fatalInHeader.toDiagnosticContainer,
            [warningInMain.toDiagnosticContainer, errorInMain.toDiagnosticContainer])
    ∧ (unitA.extractDocumentAnnotations
          ⟨fatalInHeader.toDiagnosticContainer, [], [], []⟩
          (stubWorld [warningInMain, errorInMain])).1.firstHeaderErrorDiagnostic
        = fatalInHeader.toDiagnosticContainer
    ∧ fatalInHeader.toDiagnosticContainer ≠ DiagnosticContainer.empty := by
  decide

/-- C4, the claim as stated fails: with an empty tracked file path, an error
whose location file path is empty too is put into `mainFileDiagnostics` and
does not qualify as a header error diagnostic. -/
theorem C4_counterexample_empty_location_path :
    unitNoPath.m_filePath = ""
    ∧ errorWithoutFile.severity = DiagnosticSeverity.Error
    ∧ (unitNoPath.extractDiagnostics DiagnosticContainer.empty []
          (stubWorld [errorWithoutFile])).1.2 = [errorWithoutFile.toDiagnosticContainer]
    ∧ isMainFileDiagnostic "" errorWithoutFile = true
    ∧ isHeaderErrorDiagnostic "" errorWithoutFile = false := by
  decide

/-- C4 as amended: with an empty tracked file path, `mainFileDiagnostics`
holds exactly the diagnostics of the set whose location file path is empty
(so none with a non-empty path), a diagnostic is a main-file diagnostic iff
its location file path is empty, and it qualifies as a header error
diagnostic iff its severity is Error or Fatal and its location file path is
non-empty. -/
theorem C4_empty_tracked_path (id : Utf8String) (cxIndex : CXIndex)
    (cxTranslationUnit : CXTranslationUnit) (first : DiagnosticContainer)
    (before : List DiagnosticContainer) (w : World) :
    ((TranslationUnit.mk id "" cxIndex cxTranslationUnit).extractDiagnostics
        first before w).1.2
      = ((w.engine.getDiagnosticSetFromTU cxTranslationUnit).filter
          (fun d => decide (d.location.filePath = ""))).map
          Diagnostic.toDiagnosticContainer
    ∧ (∀ d : Diagnostic, isMainFileDiagnostic "" d = true ↔ d.location.filePath = "")
    ∧ (∀ d : Diagnostic, isHeaderErrorDiagnostic "" d = true ↔
        ((d.severity = DiagnosticSeverity.Error ∨ d.severity = DiagnosticSeverity.Fatal)
          ∧ d.location.filePath ≠ "")) := by
  refine ⟨?_, ?_, ?_⟩
  · simp [TranslationUnit.extractDiagnostics, TranslationUnit.diagnostics, World.read,
      World.engine, foldl_step_main]
  · intro d; simp [isMainFileDiagnostic]
  · intro d; exact isHeaderErrorDiagnostic_iff "" d

/-! ## Validity and queries -/

/-- The member `isEmpty()` is false exactly on the non-empty strings. -/
theorem isEmpty_eq_false_iff (s : String) : s.isEmpty = false ↔ s ≠ "" := by
  constructor
  · intro h he
    rw [(String.isEmpty_iff s).mpr he] at h
    cases h
  · intro h
    cases hb : s.isEmpty
    · rfl
    · exact absurd ((String.isEmpty_iff s).mp hb) h

/-- C5: a translation unit is valid (`isNull()` is false) iff the index handle
is non-null, the parsed-representation handle is non-null, the id is
non-empty and the file path is non-empty.  `isNull` is a function of the four
members alone: it takes no world and returns nothing but the boolean. -/
theorem C5_isNull_false_iff (t : TranslationUnit) :
    t.isNull = false ↔
      (t.m_cxIndex ≠ 0 ∧ t.m_cxTranslationUnit ≠ 0 ∧ t.m_id ≠ "" ∧ t.m_filePath ≠ "") := by
  simp only [TranslationUnit.isNull, Bool.or_eq_false_iff, beq_eq_false_iff_ne,
    isEmpty_eq_false_iff]
  tauto

/-- C6, the claim as stated fails: on a translation unit constructed with a
null native handle, `diagnostics()` calls `clang_getDiagnosticSetFromTU` with
the null handle and returns the set the engine answers, and
`extractDocumentAnnotations` makes six accesses to the engine. -/
theorem C6_counterexample_null_handle_reaches_engine :
    unitNullHandle.m_cxTranslationUnit = 0
    ∧ (unitNullHandle.diagnostics (stubWorld [fatalInHeader])).1 = [fatalInHeader]
    ∧ (unitNullHandle.diagnostics (stubWorld [fatalInHeader])).2.trace
        = [⟨NativeCall.clang_getDiagnosticSetFromTU 0, 0⟩]
    ∧ (unitNullHandle.extractDocumentAnnotations
          ⟨DiagnosticContainer.empty, [], [], []⟩
          (stubWorld [fatalInHeader])).2.trace.length = 6 := by
  decide

/-- C6 as amended: no query checks the handle.  For a translation unit
constructed with a null parsed-representation handle, each query hands the
null handle to the native engine (or to the wrapper constructor), exactly as
listed, and returns what the engine answers for it.  `sourceRange` builds its
two locations in either order, as the compiler chooses, and returns the same
range in both; `extractDocumentAnnotations` returns the classification of the
set the engine answers for the null handle, with the tokens and skipped
ranges it answers. -/
theorem C6_null_handle_is_passed_on (id filePath otherPath : Utf8String) (cxIndex : CXIndex)
    (w : World) (line column toLine toColumn : Nat) (range : SourceRange)
    (out : DocumentAnnotations) :
    ((TranslationUnit.mk id filePath cxIndex 0).diagnostics w
        = (w.engine.getDiagnosticSetFromTU 0,
           w.read (NativeCall.clang_getDiagnosticSetFromTU 0)))
    ∧ ((TranslationUnit.mk id filePath cxIndex 0).sourceLocationAt line column w
        = (w.engine.sourceLocation 0 filePath line column,
           w.read (NativeCall.newSourceLocation 0 filePath line column)))
    ∧ ((TranslationUnit.mk id filePath cxIndex 0).sourceLocationAtFile otherPath line column w
        = (w.engine.sourceLocation 0 otherPath line column,
           w.read (NativeCall.newSourceLocation 0 otherPath line column)))
    ∧ ((TranslationUnit.mk id filePath cxIndex 0).sourceRange false line column
          toLine toColumn w
        = (⟨w.engine.sourceLocation 0 filePath line column,
            w.engine.sourceLocation 0 filePath toLine toColumn⟩,
           (w.read (NativeCall.newSourceLocation 0 filePath line column)).read
             (NativeCall.newSourceLocation 0 filePath toLine toColumn)))
    ∧ ((TranslationUnit.mk id filePath cxIndex 0).sourceRange true line column
          toLine toColumn w
        = (⟨w.engine.sourceLocation 0 filePath line column,
            w.engine.sourceLocation 0 filePath toLine toColumn⟩,
           (w.read (NativeCall.newSourceLocation 0 filePath toLine toColumn)).read
             (NativeCall.newSourceLocation 0 filePath line column)))
    ∧ ((TranslationUnit.mk id filePath cxIndex 0).cursorAt line column w
        = (w.engine.getCursor 0 (w.engine.sourceLocation 0 filePath line column),
           (w.read (NativeCall.newSourceLocation 0 filePath line column)).read
             (NativeCall.clang_getCursor 0
               (w.engine.sourceLocation 0 filePath line column))))
    ∧ ((TranslationUnit.mk id filePath cxIndex 0).cursorAtFile otherPath line column w
        = (w.engine.getCursor 0 (w.engine.sourceLocation 0 otherPath line column),
           (w.read (NativeCall.newSourceLocation 0 otherPath line column)).read
             (NativeCall.clang_getCursor 0
               (w.engine.sourceLocation 0 otherPath line column))))
    ∧ ((TranslationUnit.mk id filePath cxIndex 0).tokenInfosInRange range w
        = (w.engine.tokenInfos 0 (w.engine.tokenize 0 range),
           (w.read (NativeCall.clang_tokenize 0 range)).read
             (NativeCall.newTokenInfos 0 (w.engine.tokenize 0 range))))
    ∧ ((TranslationUnit.mk id filePath cxIndex 0).tokenInfos w
        = (w.engine.tokenInfos 0
             (w.engine.tokenize 0 (w.engine.getTranslationUnitCursor 0).sourceRange),
           ((w.read (NativeCall.clang_getTranslationUnitCursor 0)).read
             (NativeCall.clang_tokenize 0
               (w.engine.getTranslationUnitCursor 0).sourceRange)).read
             (NativeCall.newTokenInfos 0
               (w.engine.tokenize 0 (w.engine.getTranslationUnitCursor 0).sourceRange))))
    ∧ ((TranslationUnit.mk id filePath cxIndex 0).skippedSourceRanges w
        = (w.engine.skippedSourceRanges 0 filePath,
           w.read (NativeCall.newSkippedSourceRanges 0 filePath)))
    ∧ (((TranslationUnit.mk id filePath cxIndex 0).extractDocumentAnnotations out w).1
        = ⟨((w.engine.getDiagnosticSetFromTU 0).foldl (extractDiagnosticsStep filePath)
              ⟨false, out.firstHeaderErrorDiagnostic, []⟩).firstHeaderErrorDiagnostic,
           ((w.engine.getDiagnosticSetFromTU 0).filter
              (fun d => decide (d.location.filePath = filePath))).map
              Diagnostic.toDiagnosticContainer,
           (w.engine.tokenInfos 0
              (w.engine.tokenize 0
                (w.engine.getTranslationUnitCursor 0).sourceRange)).toTokenInfoContainers,
           (w.engine.skippedSourceRanges 0 filePath).toSourceRangeContainers⟩)
    ∧ (((TranslationUnit.mk id filePath cxIndex 0).extractDocumentAnnotations out w).2.generation
        = w.generation)
    ∧ (((TranslationUnit.mk id filePath cxIndex 0).extractDocumentAnnotations out w).2.trace
        = w.trace ++
          [⟨NativeCall.clang_getDiagnosticSetFromTU 0, w.generation⟩,
           ⟨NativeCall.clang_getDiagnosticSetFromTU 0, w.generation⟩,
           ⟨NativeCall.clang_getTranslationUnitCursor 0, w.generation⟩,
           ⟨NativeCall.clang_tokenize 0 (w.engine.getTranslationUnitCursor 0).sourceRange,
             w.generation⟩,
           ⟨NativeCall.newTokenInfos 0
             (w.engine.tokenize 0 (w.engine.getTranslationUnitCursor 0).sourceRange),
             w.generation⟩,
           ⟨NativeCall.newSkippedSourceRanges 0 filePath, w.generation⟩]) := by
  refine ⟨rfl, rfl, rfl, rfl, rfl, rfl, rfl, rfl, rfl, rfl, ?_, rfl, ?_⟩
  · simp [TranslationUnit.extractDocumentAnnotations, TranslationUnit.extractDiagnostics,
      TranslationUnit.diagnostics, TranslationUnit.tokenInfos, TranslationUnit.cursor,
      TranslationUnit.tokenInfosInRange, TranslationUnit.skippedSourceRanges, World.read,
      World.engine, foldl_step_main]
  · simp [TranslationUnit.extractDocumentAnnotations, TranslationUnit.extractDiagnostics,
      TranslationUnit.diagnostics, TranslationUnit.tokenInfos, TranslationUnit.cursor,
      TranslationUnit.tokenInfosInRange, TranslationUnit.skippedSourceRanges, World.read,
      World.engine]

/-- C7: `update`, `parse` and `reparse` return exactly what the Update Policy
returns for the modes AsNeeded, ParseIfNeeded and ForceReparse, run on an
updater built from this unit's id, index handle, parsed-representation handle
and the given input; the three differ in the mode alone. -/
theorem C7_update_parse_reparse_modes (policy : UpdatePolicy) (t : TranslationUnit)
    (parseInput : TranslationUnitUpdateInput) :
    t.update policy parseInput
        = policy ⟨t.m_id, t.m_cxIndex, t.m_cxTranslationUnit, parseInput⟩ UpdateMode.AsNeeded
    ∧ t.parse policy parseInput
        = policy ⟨t.m_id, t.m_cxIndex, t.m_cxTranslationUnit, parseInput⟩
            UpdateMode.ParseIfNeeded
    ∧ t.reparse policy parseInput
        = policy ⟨t.m_id, t.m_cxIndex, t.m_cxTranslationUnit, parseInput⟩
            UpdateMode.ForceReparse :=
  ⟨rfl, rfl, rfl⟩

/-! ## One snapshot per extraction -/

/-- C8: one `extractDocumentAnnotations` call leaves the parse generation and
the parses of the engine as they were, makes six accesses (none of them
`clang_suspendTranslationUnit`), each of which sees the generation the call
started with, and its four outputs are what `extractDiagnostics`,
`tokenInfos()` and `skippedSourceRanges()` return on the starting state. -/
theorem C8_extractDocumentAnnotations_one_generation (t : TranslationUnit)
    (out : DocumentAnnotations) (w : World) :
    (t.extractDocumentAnnotations out w).2.generation = w.generation
    ∧ (t.extractDocumentAnnotations out w).2.engineAt = w.engineAt
    ∧ (∃ calls : List Access,
        (t.extractDocumentAnnotations out w).2.trace = w.trace ++ calls
        ∧ calls.length = 6
        ∧ (∀ a ∈ calls, a.generation = w.generation)
        ∧ (∀ a ∈ calls, ∀ h, a.call ≠ NativeCall.clang_suspendTranslationUnit h))
    ∧ (t.extractDocumentAnnotations out w).1.firstHeaderErrorDiagnostic
        = (t.extractDiagnostics out.firstHeaderErrorDiagnostic out.mainFileDiagnostics w).1.1
    ∧ (t.extractDocumentAnnotations out w).1.mainFileDiagnostics
        = (t.extractDiagnostics out.firstHeaderErrorDiagnostic out.mainFileDiagnostics w).1.2
    ∧ (t.extractDocumentAnnotations out w).1.tokenInfos
        = (t.tokenInfos w).1.toTokenInfoContainers
    ∧ (t.extractDocumentAnnotations out w).1.skippedSourceRanges
        = (t.skippedSourceRanges w).1.toSourceRangeContainers := by
  refine ⟨rfl, rfl, ?_, rfl, rfl, rfl, rfl⟩
  refine ⟨[⟨NativeCall.clang_getDiagnosticSetFromTU t.m_cxTranslationUnit, w.generation⟩,
      ⟨NativeCall.clang_getDiagnosticSetFromTU t.m_cxTranslationUnit, w.generation⟩,
      ⟨NativeCall.clang_getTranslationUnitCursor t.m_cxTranslationUnit, w.generation⟩,
      ⟨NativeCall.clang_tokenize t.m_cxTranslationUnit
        (w.engine.getTranslationUnitCursor t.m_cxTranslationUnit).sourceRange, w.generation⟩,
      ⟨NativeCall.newTokenInfos t.m_cxTranslationUnit
        (w.engine.tokenize t.m_cxTranslationUnit
          (w.engine.getTranslationUnitCursor t.m_cxTranslationUnit).sourceRange),
        w.generation⟩,
      ⟨NativeCall.newSkippedSourceRanges t.m_cxTranslationUnit t.m_filePath,
        w.generation⟩], ?_, rfl, ?_, ?_⟩
  · simp [TranslationUnit.extractDocumentAnnotations, TranslationUnit.extractDiagnostics,
      TranslationUnit.diagnostics, TranslationUnit.tokenInfos, TranslationUnit.cursor,
      TranslationUnit.tokenInfosInRange, TranslationUnit.skippedSourceRanges, World.read,
      World.engine]
  · intro a ha
    simp only [List.mem_cons, List.mem_singleton, List.not_mem_nil, or_false] at ha
    rcases ha with rfl | rfl | rfl | rfl | rfl | rfl <;> rfl
  · intro a ha h
    simp only [List.mem_cons, List.mem_singleton, List.not_mem_nil, or_false] at ha
    rcases ha with rfl | rfl | rfl | rfl | rfl | rfl <;> simp

/-! ## Rendering of the notification -/

/-- C9: evaluation at the failing input.  For every message the `QDebug`
operator writes the documented format, fields separated by a comma and one
space; the `std::ostream` operator writes the same fields separated by a bare
comma, on the message for a.cpp `DocumentAnnotationsChangedMessage(a.cpp,2,1,0,0)`
where the `QDebug` operator writes
`DocumentAnnotationsChangedMessage(a.cpp, 2, true, 0, 0)`; the two texts differ
also when the stream writes booleans as words. -/
theorem C9_ostream_separator_is_bare_comma :
    (∀ (printFile : FileContainer → String) (m : DocumentAnnotationsChangedMessage),
        qDebugOutput printFile m
          = "DocumentAnnotationsChangedMessage(" ++ printFile m.fileContainer
            ++ ", " ++ toString m.diagnostics.length
            ++ ", " ++ qDebugBool (hasHeaderErrorField m)
            ++ ", " ++ toString m.tokenInfos.length
            ++ ", " ++ toString m.skippedPreprocessorRanges.length ++ ")")
    ∧ (∀ (printFile : FileContainer → String) (boolalpha : Bool)
        (m : DocumentAnnotationsChangedMessage),
        ostreamOutput printFile boolalpha m
          = "DocumentAnnotationsChangedMessage(" ++ printFile m.fileContainer
            ++ "," ++ toString m.diagnostics.length
            ++ "," ++ ostreamBool boolalpha (hasHeaderErrorField m)
            ++ "," ++ toString m.tokenInfos.length
            ++ "," ++ toString m.skippedPreprocessorRanges.length ++ ")")
    ∧ qDebugOutput printFilePath messageA
        = "DocumentAnnotationsChangedMessage(a.cpp, 2, true, 0, 0)"
    ∧ ostreamOutput printFilePath false messageA
        = "DocumentAnnotationsChangedMessage(a.cpp,2,1,0,0)"
    ∧ ostreamOutput printFilePath true messageA
        = "DocumentAnnotationsChangedMessage(a.cpp,2,true,0,0)"
    ∧ ostreamOutput printFilePath true messageA ≠ qDebugOutput printFilePath messageA := by
  refine ⟨?_, ?_, by decide, by decide, by decide, by decide⟩
  · intro printFile m
    simp [qDebugOutput, qDebugInsertions, String.join, String.append_assoc]
  · intro printFile boolalpha m
    simp [ostreamOutput, ostreamInsertions, String.join, String.append_assoc]

/-- C10, the claim as stated fails: a message that carries a fatal in b.h
whose text is empty (not the default diagnostic) is rendered with the
header-error field false by both operators. -/
theorem C10_counterexample_present_without_text :
    messageWithoutText.firstHeaderErrorDiagnostic ≠ DiagnosticContainer.empty
    ∧ messageWithoutText.firstHeaderErrorDiagnostic.severity = DiagnosticSeverity.Fatal
    ∧ hasHeaderErrorField messageWithoutText = false
    ∧ qDebugOutput printFilePath messageWithoutText
        = "DocumentAnnotationsChangedMessage(a.cpp, 0, false, 0, 0)"
    ∧ ostreamOutput printFilePath false messageWithoutText
        = "DocumentAnnotationsChangedMessage(a.cpp,0,0,0,0)" := by
  decide

/-- C10 as amended: the header-error field of the rendering, the sixth
insertion of either operator, is true iff the text of the message's first
header error diagnostic is non-empty; for a message with the default (absent)
diagnostic it is false. -/
theorem C10_header_error_field_iff_text_nonempty
    (printDebug printOs : FileContainer → String) (boolalpha : Bool)
    (m : DocumentAnnotationsChangedMessage) :
    (hasHeaderErrorField m = true ↔ m.firstHeaderErrorDiagnostic.text ≠ "")
    ∧ (qDebugInsertions printDebug m)[5]? = some (qDebugBool (hasHeaderErrorField m))
    ∧ (ostreamInsertions printOs boolalpha m)[5]?
        = some (ostreamBool boolalpha (hasHeaderErrorField m))
    ∧ hasHeaderErrorField
        ⟨m.fileContainer, m.diagnostics, DiagnosticContainer.empty, m.tokenInfos,
          m.skippedPreprocessorRanges⟩ = false := by
  refine ⟨?_, rfl, rfl, rfl⟩
  unfold hasHeaderErrorField
  rw [Bool.not_eq_true', isEmpty_eq_false_iff]

/-! ## The two classes of diagnostics do not overlap -/

end ClangBackEnd

namespace Qt4ProjectManager.Internal.MaemoGlobal

/-! ## Calling the MADDE helper scripts -/

/-- C11, the claim as stated fails: in a Windows build, with the helper
present, the process is started with the program `/madde/bin/sh.exe`, and its
arguments begin with the command, before the target arguments and the given
arguments. -/
theorem C11_counterexample_windows_arguments :
    (stubHost true (fun _ => true)).fileExists "/madde/bin/mad" = true
    ∧ madCommand (stubHost true (fun _ => true)) qtFremantleWin = "/madde/bin/mad"
    ∧ targetArgs (stubHost true (fun _ => true)) qtFremantleWin true ++ ["uname", "-m"]
        = ["-t", "fremantle", "uname", "-m"]
    ∧ callMad (stubHost true (fun _ => true)) QProcess.new ["uname", "-m"] qtFremantleWin true
        = (true, ⟨some ["HOME=/home/user", "PATH=/madde/bin", "PATH=/usr/bin"],
            [("/madde/bin/sh.exe", ["/madde/bin/mad", "-t", "fremantle", "uname", "-m"])]⟩)
    ∧ (callMad (stubHost true (fun _ => true)) QProcess.new ["uname", "-m"]
          qtFremantleWin true).2.started
        ≠ [("/madde/bin/mad", ["-t", "fremantle", "uname", "-m"])] := by
  decide

/-- C11 as amended: when the helper executable does not exist,
`callMaddeShellScript`, `callMad` and `callMadAdmin` return false and leave the
process object as it was (nothing started), `isValidMaemoQtVersion` returns
false and `architecture` the empty string, neither having started a process.
When it exists the call returns true and the process is started exactly once:
in a build without `Q_OS_WIN` with the command as program and the arguments
`targetArgs(qtVersion, useTarget)` followed by the given ones, in a Windows
build with `<maddeRoot>/bin/sh.exe` as program and the command put in front of
those arguments. -/
theorem C11_missing_helper_fails_without_start (h : Host) (proc : QProcess)
    (qtVersion : QtVersion) (command : QString) (args : List QString) (useTarget : Bool) :
    (h.fileExists command = false →
        callMaddeShellScript h proc qtVersion command args useTarget = (false, proc))
    ∧ (h.fileExists command = true → h.Q_OS_WIN = false →
        callMaddeShellScript h proc qtVersion command args useTarget
          = (true, ⟨proc.environment,
              proc.started ++ [(command, targetArgs h qtVersion useTarget ++ args)]⟩))
    ∧ (h.fileExists command = true → h.Q_OS_WIN = true →
        (callMaddeShellScript h proc qtVersion command args useTarget).1 = true
        ∧ (callMaddeShellScript h proc qtVersion command args useTarget).2.started
          = proc.started ++ [(maddeRoot h qtVersion ++ "/bin/sh.exe",
              command :: (targetArgs h qtVersion useTarget ++ args))])
    ∧ (h.fileExists (madCommand h qtVersion) = false →
        callMad h proc args qtVersion useTarget = (false, proc)
        ∧ architecture h qtVersion = ""
        ∧ (architectureProc h qtVersion).2.started = [])
    ∧ (h.fileExists (madAdminCommand h qtVersion) = false →
        callMadAdmin h proc args qtVersion useTarget = (false, proc)
        ∧ ∀ maemoVersion, isValidMaemoQtVersion h qtVersion maemoVersion = false
            ∧ (isValidMaemoQtVersionProc h qtVersion maemoVersion).2.started = []) := by
  refine ⟨?_, ?_, ?_, ?_, ?_⟩
  · intro hmiss
    simp [callMaddeShellScript, hmiss]
  · intro hex hwin
    simp [callMaddeShellScript, hex, hwin]
  · intro hex hwin
    simp [callMaddeShellScript, hex, hwin]
  · intro hmiss
    refine ⟨?_, ?_, ?_⟩
    · simp [callMad, callMaddeShellScript, hmiss]
    · simp [architecture, architectureProc, callMad, callMaddeShellScript, hmiss]
    · simp [architectureProc, callMad, callMaddeShellScript, hmiss, QProcess.new]
  · intro hmiss
    refine ⟨?_, ?_⟩
    · simp [callMadAdmin, callMaddeShellScript, hmiss]
    · intro maemoVersion
      by_cases hv : version h qtVersion = maemoVersion
      · simp [isValidMaemoQtVersion, isValidMaemoQtVersionProc, callMadAdmin,
          callMaddeShellScript, hmiss, hv, QProcess.new]
      · simp [isValidMaemoQtVersion, isValidMaemoQtVersionProc, hv, QProcess.new]

/-- C11 at concrete hosts: with no file present the calls fail and start
nothing; with the helper present in a build without `Q_OS_WIN` the process is
started once with the command and the arguments `-t fremantle uname -m`. -/
theorem C11_missing_helper_fails_without_start_witness :
    callMad (stubHost false (fun _ => false)) QProcess.new ["uname", "-m"] qtFremantle true
        = (false, QProcess.new)
    ∧ architecture (stubHost false (fun _ => false)) qtFremantle = ""
    ∧ isValidMaemoQtVersion (stubHost false (fun _ => false)) qtFremantle OsVersion.Maemo5
        = false
    ∧ callMaddeShellScript (stubHost false (fun _ => true)) QProcess.new qtFremantle
          "/madde/bin/mad" ["uname", "-m"] true
        = (true, ⟨none, [("/madde/bin/mad", ["-t", "fremantle", "uname", "-m"])]⟩)
    ∧ architecture (stubHost false (fun _ => true)) qtFremantle = "armel" :=
  have hmissing := C11_missing_helper_fails_without_start (stubHost false (fun _ => false))
    QProcess.new qtFremantle "/madde/bin/mad" ["uname", "-m"] true
  have hpresent := C11_missing_helper_fails_without_start (stubHost false (fun _ => true))
    QProcess.new qtFremantle "/madde/bin/mad" ["uname", "-m"] true
  ⟨(hmissing.2.2.2.1 rfl).1, (hmissing.2.2.2.1 rfl).2.1,
    ((hmissing.2.2.2.2 rfl).2 OsVersion.Maemo5).1,
    by simpa [targetArgs, targetName, targetRoot, binQmake, stubHost, qtFremantle,
      QProcess.new] using hpresent.2.1 rfl rfl,
    by decide⟩

/-! ## The remote environment string -/

/-- Text without `%` is scanned as plain characters. -/
theorem scan_plain (name rest : List Char) (h : ∀ c ∈ name, c ≠ '%') :
    scan ArgScan.normal (name ++ rest) = name.map ArgPiece.lit ++ scan ArgScan.normal rest := by
  induction name with
  | nil => rfl
  | cons c cs ih =>
    have hc : c ≠ '%' := h c (List.mem_cons_self c cs)
    have hcs : ∀ x ∈ cs, x ≠ '%' := fun x hx => h x (List.mem_cons_of_mem c hx)
    simp [scan, scanStep, scanStart, hc, ih hcs]

/-- Plain characters carry no place marker. -/
theorem markerNumbers_lit (name : List Char) :
    markerNumbers (name.map ArgPiece.lit) = [] := by
  induction name with
  | nil => rfl
  | cons c cs ih => simp [markerNumbers]

/-- Replacing a marker leaves plain characters as they are. -/
theorem flatMap_replace_lit (m : Nat) (a name : List Char) :
    (name.map ArgPiece.lit).flatMap (ArgPiece.replace m a) = name := by
  induction name with
  | nil => rfl
  | cons c cs ih => simp [ArgPiece.replace, List.flatMap_cons, ih]

/-- The first `arg` call puts the name in place of `%1`. -/
theorem arg_placeHolder (name : QString) :
    QString.arg "%1=%2 " name = String.mk (name.data ++ ['=', '%', '2', ' ']) := by
  have hs : scan ArgScan.normal ("%1=%2 " : String).data
      = [ArgPiece.marker 1 ['%', '1'], ArgPiece.lit '=', ArgPiece.marker 2 ['%', '2'],
          ArgPiece.lit ' '] := by decide
  unfold QString.arg
  rw [hs]
  simp [markerNumbers, ArgPiece.replace, List.min?]

/-- The second `arg` call, after a name without `%`, puts the value in place
of `%2`. -/
theorem arg_value (name value : QString) (h : ∀ c ∈ name.data, c ≠ '%') :
    QString.arg (String.mk (name.data ++ ['=', '%', '2', ' '])) value
      = String.mk (name.data ++ '=' :: value.data ++ [' ']) := by
  have hs : scan ArgScan.normal ['=', '%', '2', ' ']
      = [ArgPiece.lit '=', ArgPiece.marker 2 ['%', '2'], ArgPiece.lit ' '] := by decide
  unfold QString.arg
  simp only [scan_plain _ _ h, hs]
  have hn : markerNumbers (name.data.map ArgPiece.lit
      ++ [ArgPiece.lit '=', ArgPiece.marker 2 ['%', '2'], ArgPiece.lit ' ']) = [2] := by
    unfold markerNumbers
    rw [List.filterMap_append]
    have := markerNumbers_lit name.data
    unfold markerNumbers at this
    rw [this]
    rfl
  rw [hn]
  simp [List.flatMap_append, flatMap_replace_lit, ArgPiece.replace, List.min?]

/-- The characters `remoteEnvironment` appends for one item whose name holds
no `%`. -/
theorem foldl_plain (list : List EnvironmentItem) (acc : QString)
    (h : ∀ i ∈ list, ∀ c ∈ i.name.data, c ≠ '%') :
    (list.foldl (fun env item =>
        env ++ QString.arg (QString.arg "%1=%2 " item.name) item.value) acc).data
      = acc.data ++ list.flatMap (fun i => (i.name.data ++ '=' :: i.value.data) ++ [' ']) := by
  induction list generalizing acc with
  | nil => simp
  | cons a as ih =>
    have ha : ∀ c ∈ a.name.data, c ≠ '%' := h a (List.mem_cons_self a as)
    have has : ∀ i ∈ as, ∀ c ∈ i.name.data, c ≠ '%' :=
      fun i hi => h i (List.mem_cons_of_mem a hi)
    rw [List.foldl_cons, ih _ has, arg_placeHolder, arg_value _ _ ha]
    simp [String.data_append, List.flatMap_cons]

/-- Dropping the last space of space-terminated pieces leaves them
space-separated. -/
theorem dropLast_joined (p : List Char) (rest : List (List Char)) :
    ((p ++ [' ']) ++ rest.flatMap (fun q => q ++ [' '])).dropLast
      = p ++ rest.flatMap (fun q => ' ' :: q) := by
  induction rest generalizing p with
  | nil => simp
  | cons b bs ih =>
    rw [List.flatMap_cons, List.dropLast_append_of_ne_nil _ (by simp), ih b]
    simp [List.flatMap_cons]

/-- The characters of the loop of `String.intercalate`. -/
theorem intercalate_go_data (acc s : String) (l : List String) :
    (String.intercalate.go acc s l).data
      = acc.data ++ l.flatMap (fun x => s.data ++ x.data) := by
  induction l generalizing acc with
  | nil => simp [String.intercalate.go]
  | cons a as ih => simp [String.intercalate.go, ih, String.data_append, List.flatMap_cons]

/-- For items whose names hold no `%`, `remoteEnvironment` returns the items
as `name=value` joined by single spaces. -/
theorem remoteEnvironment_of_plain_names (list : List EnvironmentItem)
    (h : ∀ i ∈ list, ∀ c ∈ i.name.data, c ≠ '%') :
    remoteEnvironment list = renderedEnvironment list := by
  cases list with
  | nil => decide
  | cons a as =>
    apply String.ext
    have hd := foldl_plain (a :: as) "" h
    have hA : ("" : String).data
          ++ (a :: as).flatMap (fun i => (i.name.data ++ '=' :: i.value.data) ++ [' '])
        = ((a.name.data ++ '=' :: a.value.data) ++ [' '])
          ++ (as.map fun i => i.name.data ++ '=' :: i.value.data).flatMap
              (fun q => q ++ [' ']) := by
      simp [List.flatMap_cons, List.flatMap_map]
    rw [hA] at hd
    have hlen : 0 < (List.foldl (fun env item =>
        env ++ QString.arg (QString.arg "%1=%2 " item.name) item.value) ""
        (a :: as)).data.length := by
      rw [hd]; simp
    have hR : (renderedEnvironment (a :: as)).data
        = (a.name.data ++ '=' :: a.value.data)
          ++ (as.map fun i => i.name.data ++ '=' :: i.value.data).flatMap
              (fun q => ' ' :: q) := by
      unfold renderedEnvironment
      simp [String.intercalate, intercalate_go_data, String.data_append, List.flatMap_map]
    rw [hR, ← dropLast_joined, ← hd]
    unfold remoteEnvironment
    simp only [QString.mid, String.length]
    rw [if_neg (by omega), if_neg (by omega)]
    simp only [List.drop_zero]
    rw [List.dropLast_eq_take]
    congr 1
    omega

/-- C13: evaluation at the failing input.  For the single item with name
`A%1` and value `v`, `remoteEnvironment` returns `Av=%2` where the rendering
is `A%1=v`: the second `arg` call fills the marker inside the name.  With the
name `A%2` the value is filled in twice.  Items whose names hold no place
marker, the empty list, and a value that holds `%1` are rendered as
described. -/
theorem C13_place_marker_in_name :
    remoteEnvironment [⟨"A%1", "v"⟩] = "Av=%2"
    ∧ renderedEnvironment [⟨"A%1", "v"⟩] = "A%1=v"
    ∧ remoteEnvironment [⟨"A%2", "v"⟩] = "Av=v"
    ∧ renderedEnvironment [⟨"A%2", "v"⟩] = "A%2=v"
    ∧ remoteEnvironment [⟨"A", "%1"⟩, ⟨"B", "x y"⟩] = "A=%1 B=x y"
    ∧ renderedEnvironment [⟨"A", "%1"⟩, ⟨"B", "x y"⟩] = "A=%1 B=x y"
    ∧ remoteEnvironment [] = "" := by
  decide

/-! ## Recursive copy -/

/-- C14: evaluation at the failing inputs.  With a null `error` pointer a
failed `mkdir` does not end the call: copying an empty directory returns true.
With a non-null pointer the same failure returns false and sets the message.
A failure inside a nested entry leaves `*error` as it was: a failed file copy
one level down returns false with the string still empty, and a failed
`mkdir` one level down is not reported at all.  A failed file copy at the top
level returns false and sets the message. -/
theorem C14_failures_lost :
    copyRecursively hostMkdirFails (FileTree.dir []) "/s" "/t" none = (true, none)
    ∧ copyRecursively hostMkdirFails (FileTree.dir []) "/s" "/t" (some "")
        = (false, some "Failed to create directory '/t'.")
    ∧ copyRecursively hostCopyFails (FileTree.dir [("f", FileTree.file)]) "/s" "/t" (some "")
        = (false, some "")
    ∧ copyRecursively ⟨fun p => decide (p = "/t"), fun _ _ => true, id, none⟩
          (FileTree.dir [("sub", FileTree.dir [])]) "/s" "/t" (some "")
        = (true, some "")
    ∧ copyRecursively hostCopyFails FileTree.file "/s" "/t" (some "")
        = (false, some "Could not copy file '/s' to '/t'.")
    ∧ copyRecursively hostCopyFails FileTree.file "/s" "/t" none = (false, none) := by
  decide

end Qt4ProjectManager.Internal.MaemoGlobal
